import Mathlib

/-!
Verification development for the anomaly accumulation and tree-reconciliation
engine of `tensorflow_data_validation/anomalies/schema_anomalies.cc`.

The C++ translation unit defines `SchemaAnomaly` (a per-feature accumulator of
anomaly descriptions with a severity) and `SchemaAnomalies` (the orchestrator
holding the baseline schema and a `Path → SchemaAnomaly` map, walking the
statistics tree, running the missing-feature sweep and the skew sweep, and
rendering the report).

External collaborators (the `Schema` class, `MaxSeverity`, `is_problem`,
`Path::Serialize`, the constraint evaluator `Schema::Updater`, the statistics
views) are declared in headers that are not part of this translation unit;
they are modelled from the specification and marked as such in their doc
comments.  Everything else is a direct translation of the code in
`schema_anomalies.cc`.
-/

namespace DataValidation

/-- Severity of an anomaly, `tensorflow::metadata::v0::AnomalyInfo::Severity`
restricted to the three values the code handles. -/
inductive Severity where
  | UNKNOWN
  | WARNING
  | ERROR
deriving DecidableEq, Repr

/-- Direct translation of `NumericalSeverity` (schema_anomalies.cc:53-64). -/
def NumericalSeverity : Severity → Nat
  | .UNKNOWN => 0
  | .WARNING => 1
  | .ERROR => 2

/-- Modelled from the spec: `MaxSeverity` (declared in `schema_util.h`, not in
this translation unit) merges two severities as `Merge(a, b) = max(a, b)`
under the order `UNKNOWN < WARNING < ERROR`. -/
def MaxSeverity (a b : Severity) : Severity :=
  if NumericalSeverity b ≤ NumericalSeverity a then a else b

/-- Anomaly reason categories.  The code only inspects
`SCHEMA_NEW_COLUMN`; `UNKNOWN_TYPE` is the proto default used by the
aggregation step; all other categories are opaque to this core and are
represented by `OTHER` with a numeric code. -/
inductive AnomalyType where
  | UNKNOWN_TYPE
  | SCHEMA_NEW_COLUMN
  | SCHEMA_MISSING_COLUMN
  | OTHER (code : Nat)
deriving DecidableEq, Repr

/-- The `Description` record of `internal_types.h`: kind, short text, long
text.  Its default constructor yields the proto defaults: `UNKNOWN_TYPE`
kind and empty texts. -/
structure Description where
  type : AnomalyType
  short_description : String
  long_description : String
deriving DecidableEq, Repr

/-- `Description()` — the default-constructed description used as the initial
accumulator of `std::accumulate` in `UnifyDescriptions`. -/
def emptyDescription : Description :=
  { type := .UNKNOWN_TYPE, short_description := "", long_description := "" }

/-- `kMultipleErrors` (schema_anomalies.cc:49). -/
def kMultipleErrors : String := "Multiple errors"

/-- `kColumnDropped` (schema_anomalies.cc:50). -/
def kColumnDropped : String := "Column dropped"

/-- Modelled from the spec: a `Path` is an ordered sequence of string
segments naming a (possibly nested) feature; equality is segment-wise. -/
structure Path where
  steps : List String
deriving DecidableEq, Repr

/-- Modelled from the spec: `Path::Serialize` — a stable serialization of a
path to the string used as the report key. -/
def Path.Serialize (p : Path) : String :=
  String.intercalate "." p.steps

/-- Statistics-tree node (`FeatureStatsView`): its path and its children.
The per-feature statistics payload is opaque to this core (it is only ever
handed to the evaluator), so the node carries no further data. -/
inductive FeatureStatsView where
  | node (path : Path) (children : List FeatureStatsView)

/-- `FeatureStatsView::GetPath`. -/
def FeatureStatsView.GetPath : FeatureStatsView → Path
  | .node p _ => p

/-- `FeatureStatsView::GetChildren`. -/
def FeatureStatsView.GetChildren : FeatureStatsView → List FeatureStatsView
  | .node _ cs => cs

mutual

/-- All nodes of a statistics subtree, root first (used to model the flat
iteration `DatasetStatsView::features()`). -/
def FeatureStatsView.allNodes : FeatureStatsView → List FeatureStatsView
  | .node p cs => .node p cs :: FeatureStatsView.allNodesList cs

/-- All nodes of a forest of statistics subtrees. -/
def FeatureStatsView.allNodesList : List FeatureStatsView → List FeatureStatsView
  | [] => []
  | v :: vs => v.allNodes ++ FeatureStatsView.allNodesList vs

end

/-- The dataset statistics (`DatasetStatsView`): the roots of the feature
hierarchy. -/
structure DatasetStatsView where
  root_features : List FeatureStatsView

/-- `DatasetStatsView::GetRootFeatures`. -/
def DatasetStatsView.GetRootFeatures (d : DatasetStatsView) : List FeatureStatsView :=
  d.root_features

/-- `DatasetStatsView::features()` — flat iteration over every feature node. -/
def DatasetStatsView.features (d : DatasetStatsView) : List FeatureStatsView :=
  FeatureStatsView.allNodesList d.root_features

/-- The paths of every feature node present in the statistics. -/
def DatasetStatsView.allPaths (d : DatasetStatsView) : List Path :=
  d.features.map FeatureStatsView.GetPath

/-- Modelled from the spec: the `Schema` working copy (class `Schema` of
`schema.h`, external to this translation unit).  What this core queries and
mutates is feature existence and per-feature deprecation, so the model keeps
the list of feature paths with their deprecation flags. -/
structure Schema where
  features : List (Path × Bool)
deriving DecidableEq, Repr

/-- Modelled from the spec: the serialized baseline schema handed to
`Schema::Init`; `wellFormed` stands for "can be parsed/validated
structurally". -/
structure SchemaProto where
  features : List (Path × Bool)
  wellFormed : Bool
deriving DecidableEq, Repr

/-- Modelled from the spec: `Schema::Init` deep-copies the baseline into a
working `Schema`, failing if the baseline is structurally invalid. -/
def Schema.Init (sp : SchemaProto) : Except String Schema :=
  if sp.wellFormed then .ok { features := sp.features }
  else .error "baseline schema is malformed"

/-- Modelled from the spec: `Schema::FeatureExists`. -/
def Schema.FeatureExists (s : Schema) (p : Path) : Bool :=
  s.features.any (fun q => decide (q.1 = p))

/-- Modelled from the spec: `Schema::FeatureIsDeprecated`. -/
def Schema.FeatureIsDeprecated (s : Schema) (p : Path) : Bool :=
  s.features.any (fun q => decide (q.1 = p) && q.2)

/-- Modelled from the spec: `Schema::DeprecateFeature` marks the feature at
`p` deprecated in the working copy. -/
def Schema.DeprecateFeature (s : Schema) (p : Path) : Schema :=
  { features := s.features.map (fun q => if q.1 = p then (q.1, true) else q) }

/-- Modelled from the spec: `Schema::GetMissingPaths` — the paths present in
the baseline but with no corresponding statistics anywhere in the tree,
excluding already-deprecated baseline features. -/
def Schema.GetMissingPaths (s : Schema) (statistics : DatasetStatsView) : List Path :=
  (s.features.filter
    (fun q => !q.2 && !(statistics.allPaths.any (fun r => decide (r = q.1))))).map Prod.fst

/-- Modelled from the spec: `DatasetStatsView::GetByPath` — whether statistics
for `p` exist anywhere in the tree. -/
def DatasetStatsView.GetByPath (d : DatasetStatsView) (p : Path) : Bool :=
  d.allPaths.any (fun r => decide (r = p))

/-- Modelled from the spec: the opaque constraint evaluator
(`Schema::Updater` together with the `Schema` methods `Update`,
`UpdateRecursively` and `UpdateSkewComparator`, all external to this
translation unit).  Each operation consumes the accumulator's private schema
copy and returns the possibly mutated copy, plus either a failure or the
detected `(descriptions, severity)`; the skew comparator returns the mutated
copy and a description list and cannot fail. -/
structure Updater where
  update : Schema → FeatureStatsView → Schema × Except String (List Description × Severity)
  updateRecursively : Schema → FeatureStatsView → Option (List Path) →
    Schema × Except String (List Description × Severity)
  updateSkew : Schema → FeatureStatsView → Schema × List Description

/-- Direct translation of `AllSchemaNewColumn` (schema_anomalies.cc:66-73). -/
def AllSchemaNewColumn (descriptions : List Description) : Bool :=
  descriptions.all (fun d => decide (d.type = .SCHEMA_NEW_COLUMN))

/-- Direct translation of `FilterDescriptions` (schema_anomalies.cc:77-83):
a non-empty list whose descriptions are all `SCHEMA_NEW_COLUMN` collapses to
its first element; anything else passes through unchanged. -/
def FilterDescriptions : List Description → List Description
  | [] => []
  | d :: ds => if AllSchemaNewColumn (d :: ds) then [d] else d :: ds

/-- The binary step of `UnifyDescriptions` (the lambda at
schema_anomalies.cc:90-104). -/
def unifyStep (description_a description_b : Description) : Description :=
  if description_a.long_description = "" then description_b
  else if description_b.long_description = "" then description_a
  else
    { type := .UNKNOWN_TYPE
      short_description := kMultipleErrors
      long_description :=
        description_a.long_description ++ " " ++ description_b.long_description }

/-- Direct translation of `UnifyDescriptions` (schema_anomalies.cc:87-106):
`std::accumulate` from a default-constructed `Description`. -/
def UnifyDescriptions (descriptions : List Description) : Description :=
  descriptions.foldl unifyStep emptyDescription

/-- Direct translation of `ShouldCreateFeature` (schema_anomalies.cc:108-112):
create when no filter was supplied, or when the node's path is in it. -/
def ShouldCreateFeature (features_needed : Option (List Path))
    (feature : FeatureStatsView) : Bool :=
  match features_needed with
  | none => true
  | some s => s.any (fun q => decide (q = feature.GetPath))

/-- The per-feature accumulator `SchemaAnomaly`: the private schema copy
(`std::unique_ptr<Schema>`, `none` before `InitSchema`), the feature path,
the accumulated descriptions and the severity. -/
structure SchemaAnomaly where
  schema_ : Option Schema
  path_ : Path
  descriptions_ : List Description
  severity_ : Severity
deriving DecidableEq, Repr

/-- The default constructor `SchemaAnomaly()` (schema_anomalies.cc:116-117):
null schema, empty path, no descriptions, `UNKNOWN` severity. -/
def SchemaAnomaly.mk0 : SchemaAnomaly :=
  { schema_ := none, path_ := { steps := [] }, descriptions_ := [], severity_ := .UNKNOWN }

/-- `SchemaAnomaly::InitSchema` (schema_anomalies.cc:119-123): parse the
serialized baseline into the private copy, propagating failure. -/
def SchemaAnomaly.InitSchema (a : SchemaAnomaly) (schema : SchemaProto) :
    Except String SchemaAnomaly :=
  match Schema.Init schema with
  | .error e => .error e
  | .ok s => .ok { a with schema_ := some s }

/-- `SchemaAnomaly::set_path` (declared in the header; stores the path). -/
def SchemaAnomaly.set_path (a : SchemaAnomaly) (p : Path) : SchemaAnomaly :=
  { a with path_ := p }

/-- `SchemaAnomaly::UpgradeSeverity` (schema_anomalies.cc:139-142). -/
def SchemaAnomaly.UpgradeSeverity (a : SchemaAnomaly) (new_severity : Severity) :
    SchemaAnomaly :=
  { a with severity_ := MaxSeverity a.severity_ new_severity }

/-- Modelled from the spec: `SchemaAnomaly::is_problem` (declared in the
header) — true iff there is at least one description or the severity is
above `UNKNOWN`. -/
def SchemaAnomaly.is_problem (a : SchemaAnomaly) : Bool :=
  !a.descriptions_.isEmpty || decide (0 < NumericalSeverity a.severity_)

/-- `SchemaAnomaly::ObserveMissing` (schema_anomalies.cc:175-182): append the
missing-column description, upgrade severity to `ERROR`, deprecate the
feature in the private schema copy. -/
def SchemaAnomaly.ObserveMissing (a : SchemaAnomaly) : SchemaAnomaly :=
  let description : Description :=
    { type := .SCHEMA_MISSING_COLUMN
      short_description := kColumnDropped
      long_description := "Column is completely missing" }
  { a with
    descriptions_ := a.descriptions_ ++ [description]
    severity_ := MaxSeverity a.severity_ .ERROR
    schema_ := a.schema_.map (fun s => s.DeprecateFeature a.path_) }

/-- A `tensorflow::Status`: `none` is OK, `some e` carries the error. -/
abbrev TfStatus := Option String

/-- `SchemaAnomaly::Update` (schema_anomalies.cc:184-195): run the evaluator
against the private schema copy; on failure return early (descriptions and
severity untouched, the schema copy keeps whatever the evaluator left); on
success append all returned descriptions and merge the severity. -/
def SchemaAnomaly.Update (a : SchemaAnomaly) (updater : Updater)
    (feature_stats_view : FeatureStatsView) : SchemaAnomaly × TfStatus :=
  match a.schema_ with
  | none => (a, some "schema not initialized")
  | some s =>
    match updater.update s feature_stats_view with
    | (s1, .error e) => ({ a with schema_ := some s1 }, some e)
    | (s1, .ok (new_descriptions, new_severity)) =>
      ({ a with
          schema_ := some s1
          descriptions_ := a.descriptions_ ++ new_descriptions
          severity_ := MaxSeverity a.severity_ new_severity }, none)

/-- `SchemaAnomaly::CreateNewField` (schema_anomalies.cc:197-213): run the
recursive-creation evaluator; on failure return early; on success merge the
aggregate severity and append all returned descriptions. -/
def SchemaAnomaly.CreateNewField (a : SchemaAnomaly) (updater : Updater)
    (features_to_update : Option (List Path))
    (feature_stats_view : FeatureStatsView) : SchemaAnomaly × TfStatus :=
  match a.schema_ with
  | none => (a, some "schema not initialized")
  | some s =>
    match updater.updateRecursively s feature_stats_view features_to_update with
    | (s1, .error e) => ({ a with schema_ := some s1 }, some e)
    | (s1, .ok (new_descriptions, new_severity)) =>
      ({ a with
          schema_ := some s1
          descriptions_ := a.descriptions_ ++ new_descriptions
          severity_ := MaxSeverity a.severity_ new_severity }, none)

/-- `SchemaAnomaly::UpdateSkewComparator` (schema_anomalies.cc:215-224):
run the skew comparator; if it returned any descriptions upgrade severity to
`ERROR`; append all returned descriptions. -/
def SchemaAnomaly.UpdateSkewComparator (a : SchemaAnomaly) (updater : Updater)
    (feature_stats_view : FeatureStatsView) : SchemaAnomaly :=
  match a.schema_ with
  | none => a
  | some s =>
    let r := updater.updateSkew s feature_stats_view
    let a1 :=
      if !r.2.isEmpty then { a with severity_ := MaxSeverity a.severity_ .ERROR } else a
    { a1 with schema_ := some r.1, descriptions_ := a1.descriptions_ ++ r.2 }

/-- `SchemaAnomaly::FeatureIsDeprecated` (schema_anomalies.cc:226-231):
query the private schema copy when present, else `false`. -/
def SchemaAnomaly.FeatureIsDeprecated (a : SchemaAnomaly) (path : Path) : Bool :=
  match a.schema_ with
  | some s => s.FeatureIsDeprecated path
  | none => false

/-- One `AnomalyInfo::Reason` of the rendered report entry. -/
structure Reason where
  type : AnomalyType
  short_description : String
  description : String
deriving DecidableEq, Repr

/-- The rendered report entry `tensorflow::metadata::v0::AnomalyInfo`:
path, one `Reason` per (filtered) description, the unified overall
short/long text and the accumulator's severity. -/
structure AnomalyInfo where
  path : Path
  reason : List Reason
  description : String
  short_description : String
  severity : Severity
deriving DecidableEq, Repr

/-- `SchemaAnomaly::GetAnomalyInfoCommon` (schema_anomalies.cc:144-166): one
reason per filtered description; overall text from the unified summary of
the filtered list; severity copied from the accumulator.  (The two schema
text arguments of the C++ function are unused by its body and omitted.) -/
def SchemaAnomaly.GetAnomalyInfoCommon (a : SchemaAnomaly) : AnomalyInfo :=
  let filtered_descriptions := FilterDescriptions a.descriptions_
  let unified_description := UnifyDescriptions filtered_descriptions
  { path := a.path_
    reason := filtered_descriptions.map (fun d =>
      { type := d.type
        short_description := d.short_description
        description := d.long_description })
    description := unified_description.long_description
    short_description := unified_description.short_description
    severity := a.severity_ }

/-- `SchemaAnomaly::GetAnomalyInfo` (schema_anomalies.cc:168-173): renders the
accumulator; the baseline is only stringified for the (unused) text
arguments, so the result is `GetAnomalyInfoCommon`. -/
def SchemaAnomaly.GetAnomalyInfo (a : SchemaAnomaly) : AnomalyInfo :=
  a.GetAnomalyInfoCommon

/-- The `std::map<Path, SchemaAnomaly>` of the orchestrator, as an
association list keyed by `Path`. -/
abbrev AnomalyMap := List (Path × SchemaAnomaly)

/-- Lookup in the anomaly map (`anomalies_[path]` under a `ContainsKey`
guard). -/
def findAnomaly : AnomalyMap → Path → Option SchemaAnomaly
  | [], _ => none
  | (q, a) :: rest, p => if q = p then some a else findAnomaly rest p

/-- `ContainsKey(anomalies_, path)`. -/
def containsKey (m : AnomalyMap) (p : Path) : Bool :=
  (findAnomaly m p).isSome

/-- `anomalies_[path] = anomaly` — insert or overwrite. -/
def setAnomaly : AnomalyMap → Path → SchemaAnomaly → AnomalyMap
  | [], p, a => [(p, a)]
  | (q, b) :: rest, p, a =>
    if q = p then (p, a) :: rest else (q, b) :: setAnomaly rest p a

/-- The orchestrator `SchemaAnomalies`: the serialized baseline schema and
the per-path accumulator map. -/
structure SchemaAnomalies where
  serialized_baseline_ : SchemaProto
  anomalies_ : AnomalyMap
deriving DecidableEq

/-- `SchemaAnomalies::InitSchema` (schema_anomalies.cc:250-252): parse the
serialized baseline into a fresh working `Schema`. -/
def SchemaAnomalies.InitSchema (self : SchemaAnomalies) : Except String Schema :=
  Schema.Init self.serialized_baseline_

/-- `SchemaAnomalies::GenericUpdate` (schema_anomalies.cc:253-268): if an
accumulator exists for `path`, mutate it in place; otherwise build a
transient accumulator seeded from the baseline, mutate it, and commit it
into the map only when `is_problem()` holds afterwards, discarding it
silently otherwise.  Failures of seeding or of the mutation propagate and
leave the map unchanged in the transient case. -/
def SchemaAnomalies.GenericUpdate (self : SchemaAnomalies)
    (update : SchemaAnomaly → SchemaAnomaly × TfStatus) (path : Path) :
    SchemaAnomalies × TfStatus :=
  match findAnomaly self.anomalies_ path with
  | some a =>
    let r := update a
    ({ self with anomalies_ := setAnomaly self.anomalies_ path r.1 }, r.2)
  | none =>
    match SchemaAnomaly.mk0.InitSchema self.serialized_baseline_ with
    | .error e => (self, some e)
    | .ok schema_anomaly =>
      let schema_anomaly := schema_anomaly.set_path path
      let r := update schema_anomaly
      match r.2 with
      | some e => (self, some e)
      | none =>
        if r.1.is_problem then
          ({ self with anomalies_ := setAnomaly self.anomalies_ path r.1 }, none)
        else (self, none)

mutual

/-- `SchemaAnomalies::FindChangesRecursively` (schema_anomalies.cc:270-309).
Re-parses the baseline; for a node whose path exists in the baseline: stop if
the baseline feature is deprecated, else update through `GenericUpdate`, stop
if the committed accumulator now reports the feature deprecated, else recurse
into the children.  For a path absent from the baseline: when the creation
filter allows it, commit a fresh baseline-seeded accumulator if none exists,
then run `CreateNewField` on the map entry (children are not walked);
otherwise do nothing. -/
def SchemaAnomalies.FindChangesRecursively (self : SchemaAnomalies)
    (feature_stats_view : FeatureStatsView)
    (features_needed : Option (List Path)) (updater : Updater) :
    SchemaAnomalies × TfStatus :=
  match feature_stats_view with
  | .node path children =>
    match Schema.Init self.serialized_baseline_ with
    | .error e => (self, some e)
    | .ok baseline =>
      if baseline.FeatureExists path then
        if baseline.FeatureIsDeprecated path then (self, none)
        else
          let r := self.GenericUpdate
            (fun schema_anomaly =>
              schema_anomaly.Update updater (.node path children)) path
          match r.2 with
          | some e => (r.1, some e)
          | none =>
            let deprecatedNow :=
              match findAnomaly r.1.anomalies_ path with
              | some a => a.FeatureIsDeprecated path
              | none => false
            if deprecatedNow then (r.1, none)
            else r.1.FindChangesOverList children features_needed updater
      else if ShouldCreateFeature features_needed (.node path children) then
        let self1 : SchemaAnomalies × TfStatus :=
          if containsKey self.anomalies_ path then (self, none)
          else
            match SchemaAnomaly.mk0.InitSchema self.serialized_baseline_ with
            | .error e => (self, some e)
            | .ok anomaly =>
              ({ self with
                  anomalies_ := setAnomaly self.anomalies_ path (anomaly.set_path path) },
               none)
        match self1 with
        | (s1, some e) => (s1, some e)
        | (s1, none) =>
          match findAnomaly s1.anomalies_ path with
          | none => (s1, none)
          | some a =>
            let r := a.CreateNewField updater features_needed (.node path children)
            ({ s1 with anomalies_ := setAnomaly s1.anomalies_ path r.1 }, r.2)
      else (self, none)

/-- The `TF_RETURN_IF_ERROR`-style loop over a list of sibling statistics
nodes (the `for` loop at schema_anomalies.cc:290-293 and the root loop of
`FindChanges`): process each node in order, stopping at the first failure. -/
def SchemaAnomalies.FindChangesOverList (self : SchemaAnomalies)
    (views : List FeatureStatsView)
    (features_needed : Option (List Path)) (updater : Updater) :
    SchemaAnomalies × TfStatus :=
  match views with
  | [] => (self, none)
  | v :: rest =>
    let r := self.FindChangesRecursively v features_needed updater
    match r.2 with
    | some e => (r.1, some e)
    | none => r.1.FindChangesOverList rest features_needed updater

end

/-- The missing-feature sweep loop of `FindChanges`
(schema_anomalies.cc:332-339): `GenericUpdate(ObserveMissing)` on every
missing path, stopping at the first failure. -/
def SchemaAnomalies.ObserveMissingOverList (self : SchemaAnomalies) :
    List Path → SchemaAnomalies × TfStatus
  | [] => (self, none)
  | path :: rest =>
    let r := self.GenericUpdate
      (fun schema_anomaly => (schema_anomaly.ObserveMissing, none)) path
    match r.2 with
    | some e => (r.1, some e)
    | none => r.1.ObserveMissingOverList rest

/-- `SchemaAnomalies::FindChanges` (schema_anomalies.cc:311-350): walk every
root feature, then re-parse the baseline and run the missing-feature sweep.
`features_needed` stands for the keys of the C++ `FeaturesNeeded` map (the
code only reads its keys to build `feature_set_to_create`); the trailing
required-feature check only logs and has no effect on the state.  The
evaluator (`Schema::Updater`, built from the config) is passed directly. -/
def SchemaAnomalies.FindChanges (self : SchemaAnomalies)
    (statistics : DatasetStatsView)
    (features_needed : Option (List Path)) (updater : Updater) :
    SchemaAnomalies × TfStatus :=
  let feature_set_to_create := features_needed
  let r := self.FindChangesOverList statistics.GetRootFeatures
    feature_set_to_create updater
  match r.2 with
  | some e => (r.1, some e)
  | none =>
    match Schema.Init r.1.serialized_baseline_ with
    | .error e => (r.1, some e)
    | .ok baseline =>
      r.1.ObserveMissingOverList (baseline.GetMissingPaths statistics)

/-- `SchemaAnomalies::FindSkew` (schema_anomalies.cc:352-366):
`GenericUpdate(UpdateSkewComparator)` for every feature node of the
statistics.  The C++ wraps each call in `TF_CHECK_OK` (process abort on
failure); the model stops at the first failing status. -/
def SchemaAnomalies.FindSkewOverList (self : SchemaAnomalies) (updater : Updater) :
    List FeatureStatsView → SchemaAnomalies × TfStatus
  | [] => (self, none)
  | v :: rest =>
    let r := self.GenericUpdate
      (fun schema_anomaly => (schema_anomaly.UpdateSkewComparator updater v, none))
      v.GetPath
    match r.2 with
    | some e => (r.1, some e)
    | none => r.1.FindSkewOverList updater rest

/-- `SchemaAnomalies::FindSkew`, entry point over the flat feature list. -/
def SchemaAnomalies.FindSkew (self : SchemaAnomalies) (updater : Updater)
    (dataset_stats_view : DatasetStatsView) : SchemaAnomalies × TfStatus :=
  self.FindSkewOverList updater dataset_stats_view.features

/-- The rendered report `tensorflow::metadata::v0::Anomalies`: the echoed
baseline, the tag declaring keys are serialized paths, and the
serialized-path → entry mapping. -/
structure Anomalies where
  baseline : SchemaProto
  anomaly_name_format_serialized_path : Bool
  anomaly_info : List (String × AnomalyInfo)
deriving DecidableEq, Repr

/-- `SchemaAnomalies::GetSchemaDiff` (schema_anomalies.cc:233-248): render
every committed accumulator, keyed by its path's stable serialization. -/
def SchemaAnomalies.GetSchemaDiff (self : SchemaAnomalies) : Anomalies :=
  { baseline := self.serialized_baseline_
    anomaly_name_format_serialized_path := true
    anomaly_info := self.anomalies_.map (fun pair =>
      (pair.1.Serialize, pair.2.GetAnomalyInfo)) }

/-- One mutating operation on an accumulator, together with the evaluator
inputs it was invoked with (the evaluator's output is a function of the
accumulator's current private schema copy). -/
inductive MutOp where
  | updateOp (updater : Updater) (view : FeatureStatsView)
  | observeMissingOp
  | createOp (updater : Updater) (features : Option (List Path)) (view : FeatureStatsView)
  | skewOp (updater : Updater) (view : FeatureStatsView)

/-- Apply one mutating operation to an accumulator (keeping the resulting
state also on the failure paths, as the C++ in-place mutation does). -/
def SchemaAnomaly.applyOp (a : SchemaAnomaly) : MutOp → SchemaAnomaly
  | .updateOp u v => (a.Update u v).1
  | .observeMissingOp => a.ObserveMissing
  | .createOp u fs v => (a.CreateNewField u fs v).1
  | .skewOp u v => a.UpdateSkewComparator u v

/-- The severity one operation contributes at the state it runs in: `ERROR`
for a missing observation, the evaluator's returned severity for a
successful update/creation, `ERROR` for a skew comparison with findings, and
`UNKNOWN` (the identity of the merge) when the operation fails or finds
nothing. -/
def SchemaAnomaly.opSeverity (a : SchemaAnomaly) : MutOp → Severity
  | .updateOp u v =>
    match a.schema_ with
    | none => .UNKNOWN
    | some s =>
      match (u.update s v).2 with
      | .error _ => .UNKNOWN
      | .ok r => r.2
  | .observeMissingOp => .ERROR
  | .createOp u fs v =>
    match a.schema_ with
    | none => .UNKNOWN
    | some s =>
      match (u.updateRecursively s v fs).2 with
      | .error _ => .UNKNOWN
      | .ok r => r.2
  | .skewOp u v =>
    match a.schema_ with
    | none => .UNKNOWN
    | some s => if (u.updateSkew s v).2.isEmpty then .UNKNOWN else .ERROR

/-- Apply a sequence of mutating operations in order. -/
def SchemaAnomaly.applyOps (a : SchemaAnomaly) : List MutOp → SchemaAnomaly
  | [] => a
  | op :: ops => (a.applyOp op).applyOps ops

/-- The per-operation severities contributed along a sequence of mutating
operations. -/
def SchemaAnomaly.opSeverities (a : SchemaAnomaly) : List MutOp → List Severity
  | [] => []
  | op :: ops => a.opSeverity op :: (a.applyOp op).opSeverities ops

theorem findAnomaly_setAnomaly_self (m : AnomalyMap) (p : Path) (a : SchemaAnomaly) :
    findAnomaly (setAnomaly m p a) p = some a := by
  induction m with
  | nil => simp [setAnomaly, findAnomaly]
  | cons qb rest ih =>
    obtain ⟨q, b⟩ := qb
    by_cases h : q = p
    · simp [setAnomaly, findAnomaly, h]
    · simp [setAnomaly, findAnomaly, h, ih]

theorem maxSeverity_comm : ∀ a b, MaxSeverity a b = MaxSeverity b a := by
  intro a b; cases a <;> cases b <;> decide

theorem maxSeverity_assoc :
    ∀ a b c, MaxSeverity (MaxSeverity a b) c = MaxSeverity a (MaxSeverity b c) := by
  intro a b c; cases a <;> cases b <;> cases c <;> decide

theorem maxSeverity_idem : ∀ a, MaxSeverity a a = a := by
  intro a; cases a <;> decide

theorem maxSeverity_unknown_right : ∀ a, MaxSeverity a .UNKNOWN = a := by
  intro a; cases a <;> decide

theorem maxSeverity_error_right : ∀ a, MaxSeverity a .ERROR = .ERROR := by
  intro a; cases a <;> decide

theorem numericalSeverity_le_max :
    ∀ a b, NumericalSeverity a ≤ NumericalSeverity (MaxSeverity a b) := by
  intro a b; cases a <;> cases b <;> decide

theorem maxSeverity_right_comm :
    ∀ x y z, MaxSeverity (MaxSeverity z x) y = MaxSeverity (MaxSeverity z y) x := by
  intro x y z; cases x <;> cases y <;> cases z <;> decide

/-- Each mutating operation merges exactly its contributed severity into the
accumulator's severity. -/
theorem severity_applyOp (a : SchemaAnomaly) (op : MutOp) :
    (a.applyOp op).severity_ = MaxSeverity a.severity_ (a.opSeverity op) := by
  cases op with
  | updateOp u v =>
    cases h : a.schema_ with
    | none =>
      simp [SchemaAnomaly.applyOp, SchemaAnomaly.opSeverity, SchemaAnomaly.Update, h,
        maxSeverity_unknown_right]
    | some s =>
      cases hu : u.update s v with
      | mk s1 r =>
        cases r with
        | error e =>
          simp [SchemaAnomaly.applyOp, SchemaAnomaly.opSeverity, SchemaAnomaly.Update,
            h, hu, maxSeverity_unknown_right]
        | ok pr =>
          obtain ⟨nd, ns⟩ := pr
          simp [SchemaAnomaly.applyOp, SchemaAnomaly.opSeverity, SchemaAnomaly.Update,
            h, hu]
  | observeMissingOp =>
    simp [SchemaAnomaly.applyOp, SchemaAnomaly.opSeverity, SchemaAnomaly.ObserveMissing]
  | createOp u fs v =>
    cases h : a.schema_ with
    | none =>
      simp [SchemaAnomaly.applyOp, SchemaAnomaly.opSeverity, SchemaAnomaly.CreateNewField,
        h, maxSeverity_unknown_right]
    | some s =>
      cases hu : u.updateRecursively s v fs with
      | mk s1 r =>
        cases r with
        | error e =>
          simp [SchemaAnomaly.applyOp, SchemaAnomaly.opSeverity,
            SchemaAnomaly.CreateNewField, h, hu, maxSeverity_unknown_right]
        | ok pr =>
          obtain ⟨nd, ns⟩ := pr
          simp [SchemaAnomaly.applyOp, SchemaAnomaly.opSeverity,
            SchemaAnomaly.CreateNewField, h, hu]
  | skewOp u v =>
    cases h : a.schema_ with
    | none =>
      simp [SchemaAnomaly.applyOp, SchemaAnomaly.opSeverity,
        SchemaAnomaly.UpdateSkewComparator, h, maxSeverity_unknown_right]
    | some s =>
      by_cases he : (u.updateSkew s v).2.isEmpty
      · simp [SchemaAnomaly.applyOp, SchemaAnomaly.opSeverity,
          SchemaAnomaly.UpdateSkewComparator, h, he, maxSeverity_unknown_right]
      · simp [SchemaAnomaly.applyOp, SchemaAnomaly.opSeverity,
          SchemaAnomaly.UpdateSkewComparator, h, he]

/-- The severity after a sequence of operations is the left fold of the
merge over the contributed severities. -/
theorem severity_applyOps (a : SchemaAnomaly) (ops : List MutOp) :
    (a.applyOps ops).severity_ = (a.opSeverities ops).foldl MaxSeverity a.severity_ := by
  induction ops generalizing a with
  | nil => rfl
  | cons op ops ih =>
    simp only [SchemaAnomaly.applyOps, SchemaAnomaly.opSeverities, List.foldl_cons]
    rw [ih, severity_applyOp]

/-- C6: for every description list, if the list is non-empty and every
description's kind equals `SCHEMA_NEW_COLUMN`, the render-time filter
returns the single-element list holding only the first description;
otherwise it returns the list unchanged; hence a rendered entry whose
accumulator holds N > 1 descriptions all of kind `SCHEMA_NEW_COLUMN` has
exactly 1 reason, of that kind. -/
theorem C6_new_column_collapse :
    (∀ (d : Description) (ds : List Description),
       AllSchemaNewColumn (d :: ds) = true → FilterDescriptions (d :: ds) = [d]) ∧
    (∀ ds : List Description,
       AllSchemaNewColumn ds = false → FilterDescriptions ds = ds) ∧
    (FilterDescriptions [] = []) ∧
    (∀ a : SchemaAnomaly, a.descriptions_ ≠ [] →
       AllSchemaNewColumn a.descriptions_ = true →
       a.GetAnomalyInfoCommon.reason.length = 1 ∧
       ∀ r ∈ a.GetAnomalyInfoCommon.reason, r.type = .SCHEMA_NEW_COLUMN) := by
  refine ⟨?_, ?_, rfl, ?_⟩
  · intro d ds h
    simp only [FilterDescriptions, h, if_true]
  · intro ds h
    cases ds with
    | nil => rfl
    | cons d ds => simp only [FilterDescriptions, h, Bool.false_eq_true, if_false]
  · intro a hne hall
    cases hd : a.descriptions_ with
    | nil => exact absurd hd hne
    | cons d ds =>
      rw [hd] at hall
      have hftype : d.type = .SCHEMA_NEW_COLUMN := by
        have h1 := hall
        simp only [AllSchemaNewColumn, List.all_cons, Bool.and_eq_true,
          decide_eq_true_eq] at h1
        exact h1.1
      have h1 : FilterDescriptions (d :: ds) = [d] := by
        simp only [FilterDescriptions, hall, if_true]
      constructor
      · simp [SchemaAnomaly.GetAnomalyInfoCommon, hd, h1]
      · intro r hr
        simp only [SchemaAnomaly.GetAnomalyInfoCommon, hd, h1, List.map_cons,
          List.map_nil, List.mem_singleton] at hr
        rw [hr]
        exact hftype

/-- C6 witness: five `SCHEMA_NEW_COLUMN` descriptions collapse to a single
reason of that kind, and a mixed list passes through unchanged. -/
theorem C6_new_column_collapse_witness :
    FilterDescriptions
      [⟨.SCHEMA_NEW_COLUMN, "n", "c1"⟩, ⟨.SCHEMA_NEW_COLUMN, "n", "c2"⟩,
       ⟨.SCHEMA_NEW_COLUMN, "n", "c3"⟩, ⟨.SCHEMA_NEW_COLUMN, "n", "c4"⟩,
       ⟨.SCHEMA_NEW_COLUMN, "n", "c5"⟩] = [⟨.SCHEMA_NEW_COLUMN, "n", "c1"⟩] ∧
    FilterDescriptions
      [⟨.SCHEMA_NEW_COLUMN, "n", "c1"⟩, ⟨.SCHEMA_MISSING_COLUMN, "m", "c2"⟩] =
      [⟨.SCHEMA_NEW_COLUMN, "n", "c1"⟩, ⟨.SCHEMA_MISSING_COLUMN, "m", "c2"⟩] ∧
    (SchemaAnomaly.mk (some ⟨[]⟩) ⟨["f"]⟩
      [⟨.SCHEMA_NEW_COLUMN, "n", "c1"⟩, ⟨.SCHEMA_NEW_COLUMN, "n", "c2"⟩,
       ⟨.SCHEMA_NEW_COLUMN, "n", "c3"⟩, ⟨.SCHEMA_NEW_COLUMN, "n", "c4"⟩,
       ⟨.SCHEMA_NEW_COLUMN, "n", "c5"⟩] .WARNING).GetAnomalyInfoCommon.reason.length = 1 :=
  ⟨C6_new_column_collapse.1 _ _ (by decide),
   C6_new_column_collapse.2.1 _ (by decide),
   (C6_new_column_collapse.2.2.2 _ (by decide) (by decide)).1⟩

/-- The Reason Aggregation "Unify" algorithm exactly as the specification
words it (spec-side definition, compared against the translated
`UnifyDescriptions`): a left fold starting from an empty description, where
an empty running long text is replaced by the next description entirely, a
next description with empty long text is dropped, and otherwise the merge
yields the generic/unknown kind, short text "Multiple errors", and the two
long texts joined by one space. -/
def UnifyDescriptionsSpec (descriptions : List Description) : Description :=
  descriptions.foldl
    (fun running next =>
      if running.long_description = "" then next
      else if next.long_description = "" then running
      else
        { type := .UNKNOWN_TYPE
          short_description := "Multiple errors"
          long_description := running.long_description ++ " " ++ next.long_description })
    { type := .UNKNOWN_TYPE, short_description := "", long_description := "" }

/-- C7: unification is a left fold over the filtered description list
starting from an empty description, replacing an empty running long text by
the next description entirely, dropping a next description with empty long
text, and otherwise merging to the generic/unknown kind with short text
"Multiple errors" and the space-joined long texts; for one
`SCHEMA_NEW_COLUMN` description with long text "X" followed by one
`SCHEMA_MISSING_COLUMN` description with long text "Y", the rendered entry
has exactly 2 reasons, overall short text "Multiple errors" and overall
long text "X Y". -/
theorem C7_unify_left_fold :
    (∀ descriptions, UnifyDescriptions descriptions = UnifyDescriptionsSpec descriptions) ∧
    (SchemaAnomaly.mk (some ⟨[]⟩) ⟨["f"]⟩
      [⟨.SCHEMA_NEW_COLUMN, "sn", "X"⟩, ⟨.SCHEMA_MISSING_COLUMN, "sm", "Y"⟩]
      .ERROR).GetAnomalyInfoCommon.reason.length = 2 ∧
    (SchemaAnomaly.mk (some ⟨[]⟩) ⟨["f"]⟩
      [⟨.SCHEMA_NEW_COLUMN, "sn", "X"⟩, ⟨.SCHEMA_MISSING_COLUMN, "sm", "Y"⟩]
      .ERROR).GetAnomalyInfoCommon.short_description = "Multiple errors" ∧
    (SchemaAnomaly.mk (some ⟨[]⟩) ⟨["f"]⟩
      [⟨.SCHEMA_NEW_COLUMN, "sn", "X"⟩, ⟨.SCHEMA_MISSING_COLUMN, "sm", "Y"⟩]
      .ERROR).GetAnomalyInfoCommon.description = "X Y" :=
  ⟨fun _ => rfl, by decide, by decide, by decide⟩

/-- C8: `UpdateSkewComparator` appends every description the skew comparator
returns, and whenever the returned list is non-empty it merges the
accumulator's severity to `ERROR` regardless of any prior severity; when the
returned list is empty the severity is unchanged. -/
theorem C8_skew_always_escalates (a : SchemaAnomaly) (u : Updater)
    (v : FeatureStatsView) (s : Schema) (h : a.schema_ = some s) :
    ((a.UpdateSkewComparator u v).descriptions_ =
       a.descriptions_ ++ (u.updateSkew s v).2) ∧
    ((u.updateSkew s v).2 ≠ [] →
       (a.UpdateSkewComparator u v).severity_ = .ERROR) ∧
    ((u.updateSkew s v).2 = [] →
       (a.UpdateSkewComparator u v).severity_ = a.severity_) := by
  by_cases he : (u.updateSkew s v).2.isEmpty
  · have hnil : (u.updateSkew s v).2 = [] := by simpa [List.isEmpty_iff] using he
    exact ⟨by simp [SchemaAnomaly.UpdateSkewComparator, h, he],
      fun hc => absurd hnil hc,
      fun _ => by simp [SchemaAnomaly.UpdateSkewComparator, h, he]⟩
  · have hne : (u.updateSkew s v).2 ≠ [] := by simpa [List.isEmpty_iff] using he
    exact ⟨by simp [SchemaAnomaly.UpdateSkewComparator, h, he],
      fun _ => by
        simp [SchemaAnomaly.UpdateSkewComparator, h, he, maxSeverity_error_right],
      fun hc => absurd hc hne⟩

/-- C8 witness: a comparator returning one description forces severity
`ERROR` on an accumulator that previously had `UNKNOWN` severity. -/
theorem C8_skew_always_escalates_witness :
    ((SchemaAnomaly.mk (some ⟨[]⟩) ⟨["f"]⟩ [] .UNKNOWN).UpdateSkewComparator
      { update := fun s _ => (s, .ok ([], .UNKNOWN))
        updateRecursively := fun s _ _ => (s, .ok ([], .UNKNOWN))
        updateSkew := fun s _ => (s, [⟨.OTHER 7, "skew", "skew found"⟩]) }
      (.node ⟨["f"]⟩ [])).severity_ = .ERROR :=
  (C8_skew_always_escalates (SchemaAnomaly.mk (some ⟨[]⟩) ⟨["f"]⟩ [] .UNKNOWN)
    { update := fun s _ => (s, .ok ([], .UNKNOWN))
      updateRecursively := fun s _ _ => (s, .ok ([], .UNKNOWN))
      updateSkew := fun s _ => (s, [⟨.OTHER 7, "skew", "skew found"⟩]) }
    (.node ⟨["f"]⟩ []) ⟨[]⟩ rfl).2.1 (by decide)

/-- C9: `Update` is atomic with respect to the description list and
severity: if the evaluator fails, the failure is propagated and both are
unchanged; if it succeeds, all of its returned descriptions are appended and
its severity is merged. -/
theorem C9_update_atomicity (a : SchemaAnomaly) (u : Updater)
    (v : FeatureStatsView) (s : Schema) (h : a.schema_ = some s) :
    (∀ s1 e, u.update s v = (s1, .error e) →
       (a.Update u v).1.descriptions_ = a.descriptions_ ∧
       (a.Update u v).1.severity_ = a.severity_ ∧
       (a.Update u v).2 = some e) ∧
    (∀ s1 ds sev, u.update s v = (s1, .ok (ds, sev)) →
       (a.Update u v).1.descriptions_ = a.descriptions_ ++ ds ∧
       (a.Update u v).1.severity_ = MaxSeverity a.severity_ sev ∧
       (a.Update u v).2 = none) := by
  constructor
  · intro s1 e hu
    refine ⟨?_, ?_, ?_⟩ <;> simp [SchemaAnomaly.Update, h, hu]
  · intro s1 ds sev hu
    refine ⟨?_, ?_, ?_⟩ <;> simp [SchemaAnomaly.Update, h, hu]

/-- C9 witness: a failing evaluator leaves a one-description accumulator
untouched, and a succeeding evaluator appends both returned descriptions at
once. -/
theorem C9_update_atomicity_witness :
    (((SchemaAnomaly.mk (some ⟨[]⟩) ⟨["f"]⟩ [⟨.OTHER 1, "a", "b"⟩] .WARNING).Update
        { update := fun s _ => (s, .error "evaluator failed")
          updateRecursively := fun s _ _ => (s, .ok ([], .UNKNOWN))
          updateSkew := fun s _ => (s, []) }
        (.node ⟨["f"]⟩ [])).1.descriptions_ = [⟨.OTHER 1, "a", "b"⟩] ∧
     ((SchemaAnomaly.mk (some ⟨[]⟩) ⟨["f"]⟩ [⟨.OTHER 1, "a", "b"⟩] .WARNING).Update
        { update := fun s _ => (s, .error "evaluator failed")
          updateRecursively := fun s _ _ => (s, .ok ([], .UNKNOWN))
          updateSkew := fun s _ => (s, []) }
        (.node ⟨["f"]⟩ [])).1.severity_ = .WARNING) ∧
    ((SchemaAnomaly.mk (some ⟨[]⟩) ⟨["f"]⟩ [] .UNKNOWN).Update
        { update := fun s _ => (s, .ok ([⟨.OTHER 2, "c", "d"⟩, ⟨.OTHER 3, "e", "f"⟩], .ERROR))
          updateRecursively := fun s _ _ => (s, .ok ([], .UNKNOWN))
          updateSkew := fun s _ => (s, []) }
        (.node ⟨["f"]⟩ [])).1.descriptions_ =
      [⟨.OTHER 2, "c", "d"⟩, ⟨.OTHER 3, "e", "f"⟩] :=
  ⟨⟨((C9_update_atomicity (SchemaAnomaly.mk (some ⟨[]⟩) ⟨["f"]⟩ [⟨.OTHER 1, "a", "b"⟩] .WARNING)
        { update := fun s _ => (s, .error "evaluator failed")
          updateRecursively := fun s _ _ => (s, .ok ([], .UNKNOWN))
          updateSkew := fun s _ => (s, []) }
        (.node ⟨["f"]⟩ []) ⟨[]⟩ rfl).1 ⟨[]⟩ "evaluator failed" rfl).1,
    ((C9_update_atomicity (SchemaAnomaly.mk (some ⟨[]⟩) ⟨["f"]⟩ [⟨.OTHER 1, "a", "b"⟩] .WARNING)
        { update := fun s _ => (s, .error "evaluator failed")
          updateRecursively := fun s _ _ => (s, .ok ([], .UNKNOWN))
          updateSkew := fun s _ => (s, []) }
        (.node ⟨["f"]⟩ []) ⟨[]⟩ rfl).1 ⟨[]⟩ "evaluator failed" rfl).2.1⟩,
   ((C9_update_atomicity (SchemaAnomaly.mk (some ⟨[]⟩) ⟨["f"]⟩ [] .UNKNOWN)
        { update := fun s _ => (s, .ok ([⟨.OTHER 2, "c", "d"⟩, ⟨.OTHER 3, "e", "f"⟩], .ERROR))
          updateRecursively := fun s _ _ => (s, .ok ([], .UNKNOWN))
          updateSkew := fun s _ => (s, []) }
        (.node ⟨["f"]⟩ []) ⟨[]⟩ rfl).2 ⟨[]⟩
      [⟨.OTHER 2, "c", "d"⟩, ⟨.OTHER 3, "e", "f"⟩] .ERROR rfl).1⟩

/-- C2: severity merge is max under `UNKNOWN < WARNING < ERROR` and is
commutative, associative and idempotent; for any accumulator and any
sequence of mutating operations, the severity after the sequence equals the
merge folded over the per-operation severities, that fold is invariant under
permutation of the contributed severities, and every operation leaves the
severity non-decreasing. -/
theorem C2_severity_merge_laws :
    (∀ a b, MaxSeverity a b = MaxSeverity b a) ∧
    (∀ a b c, MaxSeverity (MaxSeverity a b) c = MaxSeverity a (MaxSeverity b c)) ∧
    (∀ a, MaxSeverity a a = a) ∧
    (∀ (init : Severity) (l1 l2 : List Severity), List.Perm l1 l2 →
       l1.foldl MaxSeverity init = l2.foldl MaxSeverity init) ∧
    (∀ (a : SchemaAnomaly) (ops : List MutOp),
       (a.applyOps ops).severity_ =
         (a.opSeverities ops).foldl MaxSeverity a.severity_) ∧
    (∀ (a : SchemaAnomaly) (op : MutOp),
       NumericalSeverity a.severity_ ≤ NumericalSeverity (a.applyOp op).severity_) := by
  refine ⟨maxSeverity_comm, maxSeverity_assoc, maxSeverity_idem, ?_,
    severity_applyOps, ?_⟩
  · intro init l1 l2 hp
    exact hp.foldl_eq' (fun x _ y _ z => maxSeverity_right_comm x y z) init
  · intro a op
    rw [severity_applyOp]
    exact numericalSeverity_le_max _ _

/-- C2 witness: the severity fold agrees on a swapped pair of contributed
severities, and observing a missing column never lowers the severity. -/
theorem C2_severity_merge_laws_witness :
    List.foldl MaxSeverity .UNKNOWN [Severity.WARNING, Severity.ERROR] =
      List.foldl MaxSeverity .UNKNOWN [Severity.ERROR, Severity.WARNING] ∧
    NumericalSeverity (SchemaAnomaly.mk (some ⟨[]⟩) ⟨["f"]⟩ [] .WARNING).severity_ ≤
      NumericalSeverity
        ((SchemaAnomaly.mk (some ⟨[]⟩) ⟨["f"]⟩ [] .WARNING).applyOp
          .observeMissingOp).severity_ :=
  ⟨C2_severity_merge_laws.2.2.2.1 .UNKNOWN _ _ (List.Perm.swap _ _ _),
   C2_severity_merge_laws.2.2.2.2.2 _ _⟩

/-- C10: for a path not already present in the map, a failure of the
mutation passed to `GenericUpdate` (or of seeding the transient
accumulator's schema copy from the baseline) propagates the error and
leaves the map unchanged — the transient accumulator is discarded, and no
entry is committed for that path. -/
theorem C10_generic_update_failure_discards (self : SchemaAnomalies)
    (update : SchemaAnomaly → SchemaAnomaly × TfStatus) (p : Path)
    (h : containsKey self.anomalies_ p = false) :
    (∀ e, Schema.Init self.serialized_baseline_ = .error e →
       self.GenericUpdate update p = (self, some e)) ∧
    (∀ b a1 e, Schema.Init self.serialized_baseline_ = .ok b →
       update { schema_ := some b, path_ := p, descriptions_ := [],
                severity_ := .UNKNOWN } = (a1, some e) →
       self.GenericUpdate update p = (self, some e)) := by
  have hfind : findAnomaly self.anomalies_ p = none := by
    cases hf : findAnomaly self.anomalies_ p with
    | none => rfl
    | some a => rw [containsKey, hf] at h; simp at h
  constructor
  · intro e he
    simp [SchemaAnomalies.GenericUpdate, hfind, SchemaAnomaly.InitSchema, he,
      SchemaAnomaly.mk0]
  · intro b a1 e hb hu
    simp [SchemaAnomalies.GenericUpdate, hfind, SchemaAnomaly.InitSchema, hb,
      SchemaAnomaly.mk0, SchemaAnomaly.set_path, hu]

/-- C10 witness: a failing first-touch mutation and a malformed baseline
both leave the anomaly map empty and propagate the error. -/
theorem C10_generic_update_failure_discards_witness :
    SchemaAnomalies.GenericUpdate ⟨⟨[(⟨["x"]⟩, false)], true⟩, []⟩
      (fun a => (a, some "mutation failed")) ⟨["x"]⟩ =
      (⟨⟨[(⟨["x"]⟩, false)], true⟩, []⟩, some "mutation failed") ∧
    SchemaAnomalies.GenericUpdate ⟨⟨[], false⟩, []⟩
      (fun a => (a, none)) ⟨["x"]⟩ =
      (⟨⟨[], false⟩, []⟩, some "baseline schema is malformed") :=
  ⟨(C10_generic_update_failure_discards ⟨⟨[(⟨["x"]⟩, false)], true⟩, []⟩
      (fun a => (a, some "mutation failed")) ⟨["x"]⟩ (by decide)).2
    ⟨[(⟨["x"]⟩, false)]⟩ _ "mutation failed" rfl rfl,
   (C10_generic_update_failure_discards ⟨⟨[], false⟩, []⟩
      (fun a => (a, none)) ⟨["x"]⟩ (by decide)).1
    "baseline schema is malformed" rfl⟩

/-- C1 counterexample: running the tree walk on a single feature absent from
the (empty) baseline with an unrestricted creation filter and a
recursive-creation evaluator that reports no descriptions and `UNKNOWN`
severity commits an entry for the path whose `is_problem()` is false — the
recursive-creation branch commits the accumulator before its first
mutation, without the `is_problem()` gate. -/
theorem C1_counterexample :
    (findAnomaly
      ((SchemaAnomalies.FindChangesRecursively ⟨⟨[], true⟩, []⟩
          (.node ⟨["z"]⟩ []) none
          { update := fun s _ => (s, .ok ([], .UNKNOWN))
            updateRecursively := fun s _ _ => (s, .ok ([], .UNKNOWN))
            updateSkew := fun s _ => (s, []) }).1.anomalies_)
      ⟨["z"]⟩).map SchemaAnomaly.is_problem = some false := by decide

/-- C1 (amended): the "every entry is a problem" gate holds on the
`GenericUpdate` write path — any entry that `GenericUpdate` commits for a
previously-absent path satisfies `is_problem()` at commit time; the
recursive-creation branch of the tree walk, by contrast, commits the
accumulator unconditionally before `CreateNewField` runs, so its entries
satisfy the invariant only when the creation evaluator actually reports a
problem. -/
theorem C1_generic_update_commit_is_problem (self : SchemaAnomalies)
    (update : SchemaAnomaly → SchemaAnomaly × TfStatus) (p : Path)
    (h : containsKey self.anomalies_ p = false) (entry : SchemaAnomaly)
    (hfound : findAnomaly (self.GenericUpdate update p).1.anomalies_ p = some entry) :
    entry.is_problem = true := by
  have hfind : findAnomaly self.anomalies_ p = none := by
    cases hf : findAnomaly self.anomalies_ p with
    | none => rfl
    | some a => rw [containsKey, hf] at h; simp at h
  simp only [SchemaAnomalies.GenericUpdate, hfind] at hfound
  cases hinit : SchemaAnomaly.mk0.InitSchema self.serialized_baseline_ with
  | error e =>
    rw [hinit] at hfound
    simp only at hfound
    rw [hfind] at hfound
    exact Option.noConfusion hfound
  | ok sa =>
    rw [hinit] at hfound
    simp only at hfound
    cases hr : (update (sa.set_path p)).2 with
    | some e =>
      rw [hr] at hfound
      simp only at hfound
      rw [hfind] at hfound
      exact Option.noConfusion hfound
    | none =>
      rw [hr] at hfound
      simp only at hfound
      by_cases hp : (update (sa.set_path p)).1.is_problem
      · rw [if_pos hp] at hfound
        simp only [findAnomaly_setAnomaly_self] at hfound
        rw [← Option.some_inj.mp hfound]
        exact hp
      · rw [if_neg hp] at hfound
        simp only at hfound
        rw [hfind] at hfound
        exact Option.noConfusion hfound

/-- C1 witness: a first-touch `ObserveMissing` mutation commits an entry,
and the amended theorem certifies it as a problem. -/
theorem C1_generic_update_commit_is_problem_witness :
    containsKey (([] : AnomalyMap)) ⟨["b"]⟩ = false ∧
    (match findAnomaly
        ((SchemaAnomalies.GenericUpdate ⟨⟨[(⟨["b"]⟩, false)], true⟩, []⟩
          (fun schema_anomaly => (schema_anomaly.ObserveMissing, none))
          ⟨["b"]⟩).1.anomalies_) ⟨["b"]⟩ with
     | some entry => entry.is_problem = true
     | none => True) := by
  refine ⟨rfl, ?_⟩
  cases hf : findAnomaly
      ((SchemaAnomalies.GenericUpdate ⟨⟨[(⟨["b"]⟩, false)], true⟩, []⟩
        (fun schema_anomaly => (schema_anomaly.ObserveMissing, none))
        ⟨["b"]⟩).1.anomalies_) ⟨["b"]⟩ with
  | none => trivial
  | some entry =>
    exact C1_generic_update_commit_is_problem ⟨⟨[(⟨["b"]⟩, false)], true⟩, []⟩
      (fun schema_anomaly => (schema_anomaly.ObserveMissing, none))
      ⟨["b"]⟩ rfl entry hf

/-- C3 counterexample: with an accumulator already in the map for the new
path (as a prior skew sweep can leave), the creation branch reuses and
mutates it in place — the pre-existing description survives next to the
newly created one — instead of creating a fresh baseline-seeded
accumulator. -/
theorem C3_counterexample :
    (findAnomaly
      ((SchemaAnomalies.FindChangesRecursively
          ⟨⟨[], true⟩,
           [(⟨["z"]⟩, ⟨some ⟨[]⟩, ⟨["z"]⟩, [⟨.OTHER 9, "old", "old finding"⟩], .ERROR⟩)]⟩
          (.node ⟨["z"]⟩ []) none
          { update := fun s _ => (s, .ok ([], .UNKNOWN))
            updateRecursively := fun s _ _ =>
              (s, .ok ([⟨.SCHEMA_NEW_COLUMN, "new", "new column"⟩], .WARNING))
            updateSkew := fun s _ => (s, []) }).1.anomalies_)
      ⟨["z"]⟩).map SchemaAnomaly.descriptions_ =
      some [⟨.OTHER 9, "old", "old finding"⟩,
            ⟨.SCHEMA_NEW_COLUMN, "new", "new column"⟩] := by decide

/-- C3 (amended): for a node whose path is absent from the baseline: if the
creation filter is restricted and does not contain the path, the walk does
nothing (a new-but-not-required feature yields no entry); if the filter
allows the path and no accumulator exists, a fresh baseline-seeded
accumulator is committed and `CreateNewField` is invoked exactly once on it,
without walking the children; if an accumulator from a prior sweep already
exists, it is reused in place and `CreateNewField` is invoked once on it. -/
theorem C3_creation_branch (self : SchemaAnomalies) (p : Path)
    (children : List FeatureStatsView) (features_needed : Option (List Path))
    (u : Updater) (b : Schema)
    (hinit : Schema.Init self.serialized_baseline_ = .ok b)
    (hnx : b.FeatureExists p = false) :
    (ShouldCreateFeature features_needed (.node p children) = false →
       self.FindChangesRecursively (.node p children) features_needed u = (self, none)) ∧
    (ShouldCreateFeature features_needed (.node p children) = true →
       findAnomaly self.anomalies_ p = none →
       self.FindChangesRecursively (.node p children) features_needed u =
         (let r := (SchemaAnomaly.mk (some b) p [] .UNKNOWN).CreateNewField u
            features_needed (.node p children)
          ({ self with anomalies_ :=
              (setAnomaly
                (setAnomaly self.anomalies_ p (SchemaAnomaly.mk (some b) p [] .UNKNOWN))
                p r.1) }, r.2))) ∧
    (∀ a0, ShouldCreateFeature features_needed (.node p children) = true →
       findAnomaly self.anomalies_ p = some a0 →
       self.FindChangesRecursively (.node p children) features_needed u =
         (let r := a0.CreateNewField u features_needed (.node p children)
          ({ self with anomalies_ := setAnomaly self.anomalies_ p r.1 }, r.2))) := by
  refine ⟨?_, ?_, ?_⟩
  · intro hc
    simp [SchemaAnomalies.FindChangesRecursively, hinit, hnx, hc]
  · intro hc hnone
    simp [SchemaAnomalies.FindChangesRecursively, hinit, hnx, hc, hnone,
      containsKey, SchemaAnomaly.InitSchema, SchemaAnomaly.set_path,
      SchemaAnomaly.mk0, findAnomaly_setAnomaly_self]
  · intro a0 hc hsome
    simp [SchemaAnomalies.FindChangesRecursively, hinit, hnx, hc, hsome, containsKey]

/-- C3 witness: the restricted-creation scenario — the baseline has no
feature `z`, statistics introduce `z`, and `required_paths = {a}` does not
contain `z`: the walk does nothing, so no entry for `z` appears. -/
theorem C3_creation_branch_witness :
    SchemaAnomalies.FindChangesRecursively ⟨⟨[(⟨["a"]⟩, false)], true⟩, []⟩
      (.node ⟨["z"]⟩ []) (some [⟨["a"]⟩])
      { update := fun s _ => (s, .ok ([], .UNKNOWN))
        updateRecursively := fun s _ _ => (s, .ok ([], .UNKNOWN))
        updateSkew := fun s _ => (s, []) } =
      (⟨⟨[(⟨["a"]⟩, false)], true⟩, []⟩, none) :=
  (C3_creation_branch ⟨⟨[(⟨["a"]⟩, false)], true⟩, []⟩ ⟨["z"]⟩ []
    (some [⟨["a"]⟩])
    { update := fun s _ => (s, .ok ([], .UNKNOWN))
      updateRecursively := fun s _ _ => (s, .ok ([], .UNKNOWN))
      updateSkew := fun s _ => (s, []) }
    ⟨[(⟨["a"]⟩, false)]⟩ rfl (by decide)).1 (by decide)

/-- C4: a statistics node whose path is a deprecated baseline feature stops
the walk — no update or creation call, no accumulator mutation, no recursion
into the children; and when the in-place update leaves the committed
accumulator reporting the feature as deprecated, the walk likewise does not
recurse into the children. -/
theorem C4_deprecated_shielding (self : SchemaAnomalies) (p : Path)
    (children : List FeatureStatsView) (features_needed : Option (List Path))
    (u : Updater) (b : Schema)
    (hinit : Schema.Init self.serialized_baseline_ = .ok b)
    (hex : b.FeatureExists p = true) :
    (b.FeatureIsDeprecated p = true →
       self.FindChangesRecursively (.node p children) features_needed u = (self, none)) ∧
    (b.FeatureIsDeprecated p = false →
       ∀ s1 a,
         self.GenericUpdate
           (fun schema_anomaly => schema_anomaly.Update u (.node p children)) p =
           (s1, none) →
         findAnomaly s1.anomalies_ p = some a →
         a.FeatureIsDeprecated p = true →
         self.FindChangesRecursively (.node p children) features_needed u = (s1, none)) := by
  constructor
  · intro hdep
    simp [SchemaAnomalies.FindChangesRecursively, hinit, hex, hdep]
  · intro hdep s1 a hgu hfound hadep
    simp [SchemaAnomalies.FindChangesRecursively, hinit, hex, hdep, hgu, hfound, hadep]

/-- C4 witness: a deprecated baseline feature is skipped outright, and an
update that deprecates the feature in the accumulator's schema copy stops
the walk after the update even though the node has a child. -/
theorem C4_deprecated_shielding_witness :
    SchemaAnomalies.FindChangesRecursively ⟨⟨[(⟨["f"]⟩, true)], true⟩, []⟩
      (.node ⟨["f"]⟩ [.node ⟨["f", "c"]⟩ []]) none
      { update := fun s _ => (s, .ok ([], .UNKNOWN))
        updateRecursively := fun s _ _ => (s, .ok ([], .UNKNOWN))
        updateSkew := fun s _ => (s, []) } =
      (⟨⟨[(⟨["f"]⟩, true)], true⟩, []⟩, none) ∧
    SchemaAnomalies.FindChangesRecursively ⟨⟨[(⟨["f"]⟩, false)], true⟩, []⟩
      (.node ⟨["f"]⟩ [.node ⟨["f", "c"]⟩ []]) none
      { update := fun s _ => (s.DeprecateFeature ⟨["f"]⟩,
          .ok ([⟨.OTHER 4, "drop", "column should be dropped"⟩], .WARNING))
        updateRecursively := fun s _ _ => (s, .ok ([], .UNKNOWN))
        updateSkew := fun s _ => (s, []) } =
      (⟨⟨[(⟨["f"]⟩, false)], true⟩,
        [(⟨["f"]⟩, ⟨some ⟨[(⟨["f"]⟩, true)]⟩, ⟨["f"]⟩,
           [⟨.OTHER 4, "drop", "column should be dropped"⟩], .WARNING⟩)]⟩, none) :=
  ⟨(C4_deprecated_shielding ⟨⟨[(⟨["f"]⟩, true)], true⟩, []⟩ ⟨["f"]⟩
      [.node ⟨["f", "c"]⟩ []] none
      { update := fun s _ => (s, .ok ([], .UNKNOWN))
        updateRecursively := fun s _ _ => (s, .ok ([], .UNKNOWN))
        updateSkew := fun s _ => (s, []) }
      ⟨[(⟨["f"]⟩, true)]⟩ rfl (by decide)).1 (by decide),
   (C4_deprecated_shielding ⟨⟨[(⟨["f"]⟩, false)], true⟩, []⟩ ⟨["f"]⟩
      [.node ⟨["f", "c"]⟩ []] none
      { update := fun s _ => (s.DeprecateFeature ⟨["f"]⟩,
          .ok ([⟨.OTHER 4, "drop", "column should be dropped"⟩], .WARNING))
        updateRecursively := fun s _ _ => (s, .ok ([], .UNKNOWN))
        updateSkew := fun s _ => (s, []) }
      ⟨[(⟨["f"]⟩, false)]⟩ rfl (by decide)).2 (by decide)
     ⟨⟨[(⟨["f"]⟩, false)], true⟩,
       [(⟨["f"]⟩, ⟨some ⟨[(⟨["f"]⟩, true)]⟩, ⟨["f"]⟩,
          [⟨.OTHER 4, "drop", "column should be dropped"⟩], .WARNING⟩)]⟩
     ⟨some ⟨[(⟨["f"]⟩, true)]⟩, ⟨["f"]⟩,
       [⟨.OTHER 4, "drop", "column should be dropped"⟩], .WARNING⟩
     (by decide) (by decide) (by decide)⟩

/-- C5: `ObserveMissing` appends exactly the
`{SCHEMA_MISSING_COLUMN, "Column dropped", "Column is completely missing"}`
description, merges severity to `ERROR`, and deprecates the feature in the
accumulator's private schema copy; consequently, when the baseline declares
`{a, b}`, statistics contain only `a`, and `a`'s stats satisfy its rule, the
final report contains exactly one entry, keyed by the serialization of `b`,
with severity `ERROR` and that single reason. -/
theorem C5_observe_missing (a : SchemaAnomaly) (s : Schema)
    (h : a.schema_ = some s) :
    (a.ObserveMissing.descriptions_ = a.descriptions_ ++
       [⟨.SCHEMA_MISSING_COLUMN, "Column dropped", "Column is completely missing"⟩] ∧
     a.ObserveMissing.severity_ = MaxSeverity a.severity_ .ERROR ∧
     a.ObserveMissing.schema_ = some (s.DeprecateFeature a.path_)) ∧
    (SchemaAnomalies.FindChanges
        ⟨⟨[(⟨["a"]⟩, false), (⟨["b"]⟩, false)], true⟩, []⟩
        ⟨[.node ⟨["a"]⟩ []]⟩ none
        { update := fun s0 _ => (s0, .ok ([], .UNKNOWN))
          updateRecursively := fun s0 _ _ => (s0, .ok ([], .UNKNOWN))
          updateSkew := fun s0 _ => (s0, []) }).1.GetSchemaDiff.anomaly_info =
      [("b",
        { path := ⟨["b"]⟩
          reason := [⟨.SCHEMA_MISSING_COLUMN, "Column dropped",
            "Column is completely missing"⟩]
          description := "Column is completely missing"
          short_description := "Column dropped"
          severity := .ERROR })] := by
  constructor
  · refine ⟨?_, ?_, ?_⟩ <;> simp [SchemaAnomaly.ObserveMissing, h, kColumnDropped]
  · decide

/-- C5 witness: `ObserveMissing` on a fresh accumulator for `b` records the
missing-column description, `ERROR` severity and the deprecation. -/
theorem C5_observe_missing_witness :
    (SchemaAnomaly.mk (some ⟨[(⟨["b"]⟩, false)]⟩) ⟨["b"]⟩ [] .UNKNOWN).ObserveMissing.descriptions_ =
      [⟨.SCHEMA_MISSING_COLUMN, "Column dropped", "Column is completely missing"⟩] ∧
    (SchemaAnomaly.mk (some ⟨[(⟨["b"]⟩, false)]⟩) ⟨["b"]⟩ [] .UNKNOWN).ObserveMissing.severity_ =
      MaxSeverity .UNKNOWN .ERROR ∧
    (SchemaAnomaly.mk (some ⟨[(⟨["b"]⟩, false)]⟩) ⟨["b"]⟩ [] .UNKNOWN).ObserveMissing.schema_ =
      some (Schema.DeprecateFeature ⟨[(⟨["b"]⟩, false)]⟩ ⟨["b"]⟩) :=
  (C5_observe_missing
    (SchemaAnomaly.mk (some ⟨[(⟨["b"]⟩, false)]⟩) ⟨["b"]⟩ [] .UNKNOWN)
    ⟨[(⟨["b"]⟩, false)]⟩ rfl).1

end DataValidation
